import Mathlib

/-!
Verification of the client-side session/auth lifecycle of the Blossom app:
the Zustand session store (frontend/src/store/authStore.ts), the axios API
client interceptors (src/services/api.ts), and the root-layout startup
resolution and route guard (app/_layout.tsx).

The persisted key-value store (expo SecureStore / localStorage behind the
storage wrapper) is modelled as a single map from string keys to optional
string values; every operation in the code uses the fixed key "auth_token".
JavaScript truthiness of a `string | null` value (`if (token)`) is modelled
by `strTruthy`: true exactly when the value is a non-null, non-empty string.

The API client module imports only axios and the storage wrapper while both of
its interceptors reference the identifier SecureStore, which is therefore
unbound in that module's scope: evaluating it throws a ReferenceError. Both
the intended per-line semantics of the interceptor bodies (with SecureStore
bound to the secure persisted store) and the as-executed semantics (the
unbound reference throwing before any storage access) are modelled below.
-/

namespace Blossom

/-- User profile record, from the `User` interface in authStore.ts. -/
structure User where
  user_id : String
  email : String
  name : String
  picture : Option String
  bio : Option String
  pregnancy_stage : Option String
  due_date : Option String
  children_count : Nat
  interests : List String
  is_premium : Bool
  created_at : String
  deriving Repr, DecidableEq

/-- The persisted key-value store: a map from keys to optionally present string values. -/
def Store : Type := String → Option String

/-- Write a value under a key (SecureStore.setItemAsync / storage.setItem). -/
def Store.set (s : Store) (k v : String) : Store :=
  fun k2 => if k2 = k then some v else s k2

/-- Delete a key (SecureStore.deleteItemAsync / storage.deleteItem). -/
def Store.del (s : Store) (k : String) : Store :=
  fun k2 => if k2 = k then none else s k2

/-- A store with nothing persisted. -/
def Store.empty : Store := fun _ => none

/-- JavaScript truthiness of a `string | null` value: non-null and non-empty. -/
def strTruthy : Option String → Bool
  | none => false
  | some s => !s.isEmpty

/-- In-memory state of the Zustand auth store (the data fields of `AuthState`). -/
structure AuthState where
  user : Option User
  token : Option String
  isLoading : Bool
  isAuthenticated : Bool
  deriving Repr, DecidableEq

/-- Combined session state: in-memory auth state plus the persisted store. -/
structure Session where
  mem : AuthState
  store : Store

/-- Initial session state from `create(...)` in authStore.ts: user and token absent,
isLoading true, isAuthenticated false; no assumption on persisted contents is made
here beyond the empty store used as the concrete start for sequences of calls. -/
def initialSession : Session :=
  { mem := { user := none, token := none, isLoading := true, isAuthenticated := false }
    store := Store.empty }

/-- `setUser: (user) => set({ user, isAuthenticated: !!user })`.
An object is truthy whenever non-null, so `!!user` is `user.isSome`. -/
def setUser (s : Session) (u : Option User) : Session :=
  { s with mem := { s.mem with user := u, isAuthenticated := u.isSome } }

/-- `setToken: async (token) => { if (token) await setItem(k, token) else await deleteItem(k); set({ token, isAuthenticated: !!token }) }`.
The `if (token)` test is JavaScript truthiness: null and the empty string both
take the delete branch. -/
def setToken (s : Session) (t : Option String) : Session :=
  let store2 :=
    match t with
    | some v => if v.isEmpty then Store.del s.store "auth_token" else Store.set s.store "auth_token" v
    | none => Store.del s.store "auth_token"
  { mem := { s.mem with token := t, isAuthenticated := strTruthy t }
    store := store2 }

/-- `setLoading: (loading) => set({ isLoading: loading })`. -/
def setLoading (s : Session) (b : Bool) : Session :=
  { s with mem := { s.mem with isLoading := b } }

/-- `logout: async () => { await deleteItem(k); set({ user: null, token: null, isAuthenticated: false }) }`. -/
def logout (s : Session) : Session :=
  { mem := { s.mem with user := none, token := none, isAuthenticated := false }
    store := Store.del s.store "auth_token" }

/-- `login: async (token, user) => { await setItem(k, token); set({ token, user, isAuthenticated: true, isLoading: false }) }`. -/
def login (s : Session) (t : String) (u : User) : Session :=
  { mem := { user := some u, token := some t, isLoading := false, isAuthenticated := true }
    store := Store.set s.store "auth_token" t }

/-- An axios rejection object as seen by the response interceptor:
`error.response?.status` (absent on a pure network fault), whether the
originating request carried a bearer Authorization header (the interceptor
never inspects this), and an opaque message identifying the failure. -/
structure ApiError where
  status : Option Nat
  hadAuthHeader : Bool
  message : String
  deriving Repr, DecidableEq

/-- An outgoing request config as seen by the request interceptor: the URL and
the optional Authorization header value. -/
structure Config where
  url : String
  authorization : Option String
  deriving Repr, DecidableEq

/-- Body of the request interceptor in api.ts under the intended binding of
SecureStore to the secure persisted store:
`const token = await SecureStore.getItemAsync('auth_token'); if (token) config.headers.Authorization = Bearer token; return config`.
It reads only the persisted store, never the in-memory session state. The
module as written does not import SecureStore; `requestInterceptorRun` models
the interceptor as it actually executes. -/
def requestInterceptor (store : Store) (c : Config) : Config :=
  match store "auth_token" with
  | some t => if t.isEmpty then c else { c with authorization := some ("Bearer " ++ t) }
  | none => c

/-- Body of the response error interceptor in api.ts under the intended binding
of SecureStore to the secure persisted store:
`if (error.response?.status === 401) await SecureStore.deleteItemAsync('auth_token'); return Promise.reject(error)`.
Returns the updated session and the re-rejected error. The module as written
does not import SecureStore; `responseErrorHandlerRun` models the handler as
it actually executes, and `loadAuth` keeps this intended-binding semantics for
its 401 path (in the client as written the profile request rejects with a
status-less ReferenceError instead, one instance of its fault oracle). -/
def responseErrorInterceptor (s : Session) (e : ApiError) : Session × ApiError :=
  let s2 := if e.status = some 401 then { s with store := Store.del s.store "auth_token" } else s
  (s2, e)

/-- A value a promise in the client can reject with: a structured axios failure
or a thrown JavaScript ReferenceError, as raised by evaluating an unbound
identifier. -/
inductive Rejection where
  | apiError : ApiError → Rejection
  | referenceError : String → Rejection
  deriving Repr, DecidableEq

/-- Whether the api.ts module scope binds the identifier SecureStore: the
module's import block names only axios and the storage wrapper, so it does
not. -/
def apiModuleImportsSecureStore : Bool := false

/-- The request interceptor as it actually executes: its first statement
evaluates `SecureStore.getItemAsync`, so with SecureStore unbound the
interceptor throws a ReferenceError before the persisted token is read or the
request dispatched, and every request through the client rejects; with the
identifier bound it would behave as `requestInterceptor`. -/
def requestInterceptorRun (store : Store) (c : Config) : Except Rejection Config :=
  if apiModuleImportsSecureStore then Except.ok (requestInterceptor store c)
  else Except.error (Rejection.referenceError "SecureStore is not defined")

/-- The response error handler as it actually executes: a rejection without
status 401 is re-rejected unchanged (no storage access), while the 401 branch
evaluates `SecureStore.deleteItemAsync` — with SecureStore unbound this throws
a ReferenceError, leaving the session untouched and replacing the original
failure; with the identifier bound it would behave as
`responseErrorInterceptor`. -/
def responseErrorHandlerRun (s : Session) (e : ApiError) : Session × Rejection :=
  if e.status = some 401 then
    if apiModuleImportsSecureStore then
      ((responseErrorInterceptor s e).1, Rejection.apiError e)
    else (s, Rejection.referenceError "SecureStore is not defined")
  else (s, Rejection.apiError e)

/-- Forced navigations the route guard can issue: `router.replace('/')` to the
landing segment, or `router.replace('/(tabs)')` to the main tabbed group. -/
inductive Nav where
  | replaceRoot
  | replaceTabs
  deriving Repr, DecidableEq

/-- The route-guard effect in app/_layout.tsx, as a function of isLoading,
isAuthenticated and the router segments; it issues at most one forced
navigation per evaluation (`none` means no navigation). -/
def routeGuard (isLoading isAuthenticated : Bool) (segments : List String) : Option Nav :=
  if isLoading then none
  else
    let inAuthGroup : Bool := segments.head? == some "(auth)"
    let inTabsGroup : Bool := segments.head? == some "(tabs)"
    if !isAuthenticated && !inAuthGroup then some Nav.replaceRoot
    else if isAuthenticated && !inTabsGroup
        && segments.head? != some "post" && segments.head? != some "forum"
        && segments.head? != some "group" && segments.head? != some "resources"
        && segments.head? != some "premium" then some Nav.replaceTabs
    else none

/-- Route guard described by the spec's words, for comparison with `routeGuard`:
no navigation while resolving; unauthenticated off the auth group goes to the
landing segment; authenticated outside the tabbed group and the fixed
allow-list goes to the tabbed group's default screen. -/
def specRouteGuard (isLoading isAuthenticated : Bool) (seg : Option String) : Option Nav :=
  if isLoading then none
  else if !isAuthenticated then
    if seg == some "(auth)" then none else some Nav.replaceRoot
  else
    if seg == some "(tabs)" || seg == some "post" || seg == some "forum"
        || seg == some "group" || seg == some "resources" || seg == some "premium"
    then none else some Nav.replaceTabs

/-- Fault oracle for one startup-resolution run: whether the initial persisted
read faults, whether the persist inside `setToken` faults (an un-awaited
rejection: the in-memory update then never runs and the fault floats outside
`loadAuth`'s try/catch), the outcome of the `authAPI.getMe()` request, and
whether the catch-block delete faults. -/
structure Faults where
  getFault : Bool
  persistFault : Bool
  getMeResult : Except ApiError User
  delFault : Bool

/-- Startup resolution `loadAuth` from app/_layout.tsx:
read the persisted token; if truthy, call `setToken` (not awaited) and fetch
the profile (through the API client, whose response interceptor deletes the
persisted token on a 401); on success `setUser(response.data)`; on any caught
fault try to delete the persisted token, swallowing a delete fault; finally
`setLoading(false)`. -/
def loadAuth (s : Session) (f : Faults) : Session :=
  let tryResult : Session × Bool :=
    if f.getFault then (s, true)
    else
      match s.store "auth_token" with
      | none => (s, false)
      | some tok =>
        if tok.isEmpty then (s, false)
        else
          let s1 := if f.persistFault then s else setToken s (some tok)
          match f.getMeResult with
          | Except.ok u => (setUser s1 (some u), false)
          | Except.error e => ((responseErrorInterceptor s1 e).1, true)
  let s2 :=
    if tryResult.2 then
      if f.delFault then tryResult.1
      else { tryResult.1 with store := Store.del tryResult.1.store "auth_token" }
    else tryResult.1
  setLoading s2 false

/-- One call in a sequence against the session store. -/
inductive Call where
  | login : String → User → Call
  | logout : Call
  | setTok : Option String → Call
  deriving Repr

/-- Apply one call to the session state. -/
def applyCall (s : Session) : Call → Session
  | Call.login t u => Blossom.login s t u
  | Call.logout => Blossom.logout s
  | Call.setTok t => Blossom.setToken s t

/-- Run a finite sequence of calls from a starting session state. -/
def runCalls (s : Session) (cs : List Call) : Session :=
  cs.foldl applyCall s

/-- A call whose token argument, when a string is supplied, is non-empty. -/
def goodCall : Call → Bool
  | Call.login t _ => !t.isEmpty
  | Call.logout => true
  | Call.setTok none => true
  | Call.setTok (some t) => !t.isEmpty

/-- A concrete profile record used in witnesses. -/
def sampleUser : User :=
  { user_id := "u1", email := "sarah@example.com", name := "Sarah"
    picture := none, bio := none, pregnancy_stage := none, due_date := none
    children_count := 0, interests := [], is_premium := true
    created_at := "2026-01-19" }

/-- A store holding the token "abc" under the fixed key, for concrete runs. -/
def storedAbc : Store := Store.set Store.empty "auth_token" "abc"

/-- A fresh session whose persisted store holds the token "abc". -/
def sessionAbc : Session := { mem := initialSession.mem, store := storedAbc }

/-- A concrete 401 rejection as produced by axios. -/
def err401 : ApiError :=
  { status := some 401, hadAuthHeader := true
    message := "Request failed with status code 401" }

/-- The fault oracle for a startup run where the profile request is rejected
with a 401 and every storage operation succeeds. -/
def faults401 : Faults :=
  { getFault := false, persistFault := false
    getMeResult := Except.error err401, delFault := false }

/-!
Theorems settling the claims.
-/

/-- C1 (counterexample): from the initial state, `setUser` alone flips
`isAuthenticated` to true while the in-memory token is still absent, so
`setUser` does not set only the user field, and after it settles
`isAuthenticated` does not match token presence. -/
theorem c1_counterexample :
    (setUser initialSession (some sampleUser)).mem.isAuthenticated = true ∧
    (setUser initialSession (some sampleUser)).mem.token = none :=
  ⟨rfl, rfl⟩

/-- C1 (amended): `setUser` sets the user field and recomputes
`isAuthenticated` as user presence (leaving token, isLoading and the persisted
store untouched), so `setUser` can change `isAuthenticated`; `setToken` sets
`isAuthenticated` to the truthiness of its argument, `login` sets it to true,
`logout` to false, and `setLoading` changes nothing besides `isLoading`. -/
theorem c1_amended_per_operation_effects :
    ∀ (s : Session) (u : Option User) (t : Option String) (tok : String) (usr : User) (b : Bool),
      (setUser s u).mem.user = u ∧
      (setUser s u).mem.isAuthenticated = u.isSome ∧
      (setUser s u).mem.token = s.mem.token ∧
      (setUser s u).mem.isLoading = s.mem.isLoading ∧
      (setUser s u).store = s.store ∧
      (setToken s t).mem.isAuthenticated = strTruthy t ∧
      (setToken s t).mem.token = t ∧
      (login s tok usr).mem.isAuthenticated = true ∧
      (logout s).mem.isAuthenticated = false ∧
      (setLoading s b).mem.isAuthenticated = s.mem.isAuthenticated ∧
      (setLoading s b).mem.token = s.mem.token ∧
      (setLoading s b).mem.user = s.mem.user ∧
      (setLoading s b).store = s.store := by
  intro s u t tok usr b
  exact ⟨rfl, rfl, rfl, rfl, rfl, rfl, rfl, rfl, rfl, rfl, rfl, rfl, rfl⟩

/-- C2 (code divergence): starting with persisted token "abc" and a profile
request rejected with 401, the run does end non-loading with the persisted
token deleted and user absent, but the in-memory state stays authenticated
with token "abc": the catch block deletes only the persisted copy and never
resets the in-memory fields set by `setToken` before the fault. -/
theorem c2_startup_401_leaves_memory_authenticated :
    (loadAuth sessionAbc faults401).mem.isLoading = false ∧
    (loadAuth sessionAbc faults401).mem.user = none ∧
    (loadAuth sessionAbc faults401).store "auth_token" = none ∧
    (loadAuth sessionAbc faults401).mem.isAuthenticated = true ∧
    (loadAuth sessionAbc faults401).mem.token = some "abc" := by
  decide

/-- C3 (counterexample): the claim fails at empty-string tokens under either
reading of "token is present". After `setToken("")` the in-memory token is the
present string "" while `isAuthenticated` is false; after `login("", u)` the
in-memory token is empty (not truthy) while `isAuthenticated` is true. -/
theorem c3_counterexample :
    ((runCalls initialSession [Call.setTok (some "")]).mem.token = some "" ∧
     (runCalls initialSession [Call.setTok (some "")]).mem.token.isSome = true ∧
     (runCalls initialSession [Call.setTok (some "")]).mem.isAuthenticated = false) ∧
    ((runCalls initialSession [Call.login "" sampleUser]).mem.isAuthenticated = true ∧
     strTruthy (runCalls initialSession [Call.login "" sampleUser]).mem.token = false) := by
  decide

/-- C3 (amended): for every finite sequence of login/logout/setToken calls from
the initial session state in which every supplied token string is non-empty,
after each call settles `isAuthenticated` equals token presence (and equals
token truthiness; the two coincide for non-empty tokens). -/
theorem c3_amended_isAuthenticated_tracks_token :
    ∀ (cs : List Call) (c : Call),
      (∀ x ∈ cs ++ [c], goodCall x = true) →
      (runCalls initialSession (cs ++ [c])).mem.isAuthenticated
          = (runCalls initialSession (cs ++ [c])).mem.token.isSome ∧
      (runCalls initialSession (cs ++ [c])).mem.isAuthenticated
          = strTruthy (runCalls initialSession (cs ++ [c])).mem.token := by
  intro cs c hg
  have hc : goodCall c = true := hg c (by simp)
  have hrun : runCalls initialSession (cs ++ [c]) = applyCall (runCalls initialSession cs) c := by
    simp [runCalls, List.foldl_append]
  rw [hrun]
  cases c with
  | login t u =>
    simp only [goodCall] at hc
    simp [applyCall, login, strTruthy, hc]
  | logout =>
    simp [applyCall, logout, strTruthy]
  | setTok t =>
    cases t with
    | none => simp [applyCall, setToken, strTruthy]
    | some v =>
      simp only [goodCall] at hc
      simp [applyCall, setToken, strTruthy, hc]

/-- C3 (witness): a concrete three-call run with non-empty tokens after which
`isAuthenticated` equals token presence. -/
theorem c3_amended_witness :
    (runCalls initialSession
        ([Call.setTok (some "abc"), Call.logout] ++ [Call.login "t1" sampleUser])).mem.isAuthenticated
      = (runCalls initialSession
        ([Call.setTok (some "abc"), Call.logout] ++ [Call.login "t1" sampleUser])).mem.token.isSome :=
  (c3_amended_isAuthenticated_tracks_token [Call.setTok (some "abc"), Call.logout]
    (Call.login "t1" sampleUser) (by decide)).1

/-- C4: the route guard issues no navigation while loading and otherwise
behaves exactly as the spec describes: unauthenticated off the auth group
forces one navigation to the landing segment, authenticated outside the tabbed
group and the allow-list (post, forum, group, resources, premium) forces one
navigation to the tabbed group's default screen, and nothing otherwise; in
particular, authenticated on segment "premium" issues zero navigations. -/
theorem c4_routeGuard_matches_spec :
    (∀ (l a : Bool) (segs : List String),
      routeGuard l a segs = specRouteGuard l a segs.head?) ∧
    routeGuard false true ["premium"] = none := by
  constructor
  · intro l a segs
    cases l with
    | true => rfl
    | false =>
      cases a with
      | false =>
        simp only [routeGuard, specRouteGuard]
        cases h : segs.head? == some "(auth)" <;> simp [h]
      | true =>
        simp only [routeGuard, specRouteGuard]
        cases h1 : segs.head? == some "(tabs)" <;>
        cases h2 : segs.head? == some "post" <;>
        cases h3 : segs.head? == some "forum" <;>
        cases h4 : segs.head? == some "group" <;>
        cases h5 : segs.head? == some "resources" <;>
        cases h6 : segs.head? == some "premium" <;>
          simp [h1, h2, h3, h4, h5, h6, bne]
  · decide

/-- C5: for every token and user, login persists the token under the fixed key
(so a subsequent persisted read returns it) and in one combined update sets
token, user, isAuthenticated true and isLoading false. -/
theorem c5_login_persists_and_sets :
    ∀ (s : Session) (t : String) (u : User),
      (login s t u).store "auth_token" = some t ∧
      (login s t u).mem.token = some t ∧
      (login s t u).mem.user = some u ∧
      (login s t u).mem.isAuthenticated = true ∧
      (login s t u).mem.isLoading = false := by
  intro s t u
  refine ⟨?_, rfl, rfl, rfl, rfl⟩
  simp [login, Store.set]

/-- C6: from every session state, logout deletes the persisted token (so a
subsequent persisted read returns absent) and clears the in-memory token and
user with isAuthenticated false, leaving isLoading unchanged. -/
theorem c6_logout_clears_and_preserves_isLoading :
    ∀ (s : Session),
      (logout s).store "auth_token" = none ∧
      (logout s).mem.token = none ∧
      (logout s).mem.user = none ∧
      (logout s).mem.isAuthenticated = false ∧
      (logout s).mem.isLoading = s.mem.isLoading := by
  intro s
  refine ⟨?_, rfl, rfl, rfl, rfl⟩
  simp [logout, Store.del]

/-- C7 (code divergence): api.ts never binds SecureStore, so on a rejection
with status 401 the handler throws a ReferenceError evaluating
`SecureStore.deleteItemAsync`: the persisted token "abc" survives and the
caller observes the ReferenceError instead of the original failure. -/
theorem c7_401_handler_throws_reference_error :
    (responseErrorHandlerRun sessionAbc err401).1.store "auth_token" = some "abc" ∧
    (responseErrorHandlerRun sessionAbc err401).2
        = Rejection.referenceError "SecureStore is not defined" ∧
    (responseErrorHandlerRun sessionAbc err401).2 ≠ Rejection.apiError err401 := by
  decide

/-- C8 (code divergence): with SecureStore unbound in api.ts, the request
interceptor rejects every request with a ReferenceError before the persisted
token is read or the request dispatched — whatever is stored and whatever the
config, so no request is ever sent, with or without an Authorization header. -/
theorem c8_request_interceptor_always_rejects :
    ∀ (store : Store) (c : Config),
      requestInterceptorRun store c
        = Except.error (Rejection.referenceError "SecureStore is not defined") := by
  intro store c
  rfl

/-- C9: every startup resolution run terminates with isLoading false, whatever
the persisted token, the profile-request outcome and the fault flags for each
storage operation the run performs; `loadAuth` is a total function of these, so
no such fault escapes it. -/
theorem c9_loadAuth_always_ends_not_loading :
    ∀ (s : Session) (f : Faults), (loadAuth s f).mem.isLoading = false := by
  intro s f
  rfl

/-- C10 (code divergence): the 401 deletion never occurs: invoked on any 401 —
whatever the message and whether or not the originating request carried a
bearer header — the handler leaves the session, its persisted store included,
untouched; in particular a failed password login while a stale token "abc" is
persisted deletes nothing. -/
theorem c10_401_deletion_never_occurs :
    (∀ (s : Session) (b : Bool) (msg : String),
      (responseErrorHandlerRun s
          { status := some 401, hadAuthHeader := b, message := msg }).1 = s) ∧
    (responseErrorHandlerRun sessionAbc
        { status := some 401, hadAuthHeader := false,
          message := "Invalid credentials" }).1.store "auth_token" = some "abc" := by
  constructor
  · intro s b msg
    rfl
  · decide

end Blossom
